import Mathlib

/-!
Verification of `server.py`: a minimal aiohttp + Gino HTTP API exposing
CRUD-style access to users and adverts backed by a relational store.

The development shallowly embeds the data model, the data-access layer
(`BaseModel.get_or_404`, `delete_or_404`, `create_instance`), the request
handlers (`UserView`, `AdvertView`, `Users`, `Adverts`) and the route-pattern
constraints, and proves the behavioural properties stated in the
specification against that embedding.
-/

set_option linter.unusedVariables false

namespace MD5

/-!
Model of `hashlib.md5(...).hexdigest()` as used by `User.create_instance`
(server.py line 64): the full MD5 algorithm (RFC 1321) over the UTF-8 bytes
of the input string, rendered as a lowercase 32-character hex digest.
Machine words are `Nat` reduced modulo `2^32` explicitly.
-/

/-- Truncation to a 32-bit word. -/
def w32 (x : Nat) : Nat := x % 4294967296

/-- Left-rotation of a 32-bit word `x < 2^32` by `n` bits (`0 < n < 32`). -/
def rotl (x n : Nat) : Nat := w32 (x <<< n) ||| (x >>> (32 - n))

/-- The 64 sine-derived round constants of MD5. -/
def K : List Nat :=
  [0xd76aa478, 0xe8c7b756, 0x242070db, 0xc1bdceee,
   0xf57c0faf, 0x4787c62a, 0xa8304613, 0xfd469501,
   0x698098d8, 0x8b44f7af, 0xffff5bb1, 0x895cd7be,
   0x6b901122, 0xfd987193, 0xa679438e, 0x49b40821,
   0xf61e2562, 0xc040b340, 0x265e5a51, 0xe9b6c7aa,
   0xd62f105d, 0x02441453, 0xd8a1e681, 0xe7d3fbc8,
   0x21e1cde6, 0xc33707d6, 0xf4d50d87, 0x455a14ed,
   0xa9e3e905, 0xfcefa3f8, 0x676f02d9, 0x8d2a4c8a,
   0xfffa3942, 0x8771f681, 0x6d9d6122, 0xfde5380c,
   0xa4beea44, 0x4bdecfa9, 0xf6bb4b60, 0xbebfbc70,
   0x289b7ec6, 0xeaa127fa, 0xd4ef3085, 0x04881d05,
   0xd9d4d039, 0xe6db99e5, 0x1fa27cf8, 0xc4ac5665,
   0xf4292244, 0x432aff97, 0xab9423a7, 0xfc93a039,
   0x655b59c3, 0x8f0ccc92, 0xffeff47d, 0x85845dd1,
   0x6fa87e4f, 0xfe2ce6e0, 0xa3014314, 0x4e0811a1,
   0xf7537e82, 0xbd3af235, 0x2ad7d2bb, 0xeb86d391]

/-- The per-round left-rotation amounts of MD5. -/
def S : List Nat :=
  [7, 12, 17, 22, 7, 12, 17, 22, 7, 12, 17, 22, 7, 12, 17, 22,
   5, 9, 14, 20, 5, 9, 14, 20, 5, 9, 14, 20, 5, 9, 14, 20,
   4, 11, 16, 23, 4, 11, 16, 23, 4, 11, 16, 23, 4, 11, 16, 23,
   6, 10, 15, 21, 6, 10, 15, 21, 6, 10, 15, 21, 6, 10, 15, 21]

/-- UTF-8 encoding of a single code point, as `str.encode()` produces. -/
def utf8Char (n : Nat) : List Nat :=
  if n < 0x80 then [n]
  else if n < 0x800 then
    [0xC0 ||| (n >>> 6), 0x80 ||| (n &&& 0x3F)]
  else if n < 0x10000 then
    [0xE0 ||| (n >>> 12), 0x80 ||| ((n >>> 6) &&& 0x3F), 0x80 ||| (n &&& 0x3F)]
  else
    [0xF0 ||| (n >>> 18), 0x80 ||| ((n >>> 12) &&& 0x3F),
     0x80 ||| ((n >>> 6) &&& 0x3F), 0x80 ||| (n &&& 0x3F)]

/-- UTF-8 byte sequence of a string, modelling Python `s.encode()`. -/
def utf8Bytes (s : String) : List Nat :=
  (s.toList.map (fun c => utf8Char c.toNat)).flatten

/-- The eight little-endian bytes of a number below `2^64`. -/
def leBytes8 (n : Nat) : List Nat :=
  (List.range 8).map (fun i => (n >>> (8 * i)) &&& 0xFF)

/-- MD5 padding: append `0x80`, zero bytes to reach 56 mod 64, then the
bit length as a little-endian 64-bit integer. -/
def padMessage (msg : List Nat) : List Nat :=
  let len := msg.length
  let z := (119 - len % 64) % 64
  msg ++ [0x80] ++ List.replicate z 0 ++ leBytes8 ((len * 8) % 18446744073709551616)

/-- Split a byte list (whose length is a multiple of 64, as `padMessage`
guarantees) into its 64-byte blocks. -/
def chunks64 (l : List Nat) : List (List Nat) :=
  (List.range (l.length / 64)).map (fun i => (l.drop (64 * i)).take 64)

/-- Little-endian 32-bit word `j` of a 64-byte block. -/
def leWord (b : List Nat) (j : Nat) : Nat :=
  b.getD (4 * j) 0 + 256 * b.getD (4 * j + 1) 0 +
    65536 * b.getD (4 * j + 2) 0 + 16777216 * b.getD (4 * j + 3) 0

/-- One of the 64 MD5 rounds on the state `(a, b, c, d)`. -/
def round (M : Nat → Nat) (st : Nat × Nat × Nat × Nat) (i : Nat) :
    Nat × Nat × Nat × Nat :=
  let (a, b, c, d) := st
  let f :=
    if i < 16 then (b &&& c) ||| ((0xFFFFFFFF ^^^ b) &&& d)
    else if i < 32 then (d &&& b) ||| ((0xFFFFFFFF ^^^ d) &&& c)
    else if i < 48 then b ^^^ c ^^^ d
    else c ^^^ (b ||| (0xFFFFFFFF ^^^ d))
  let g :=
    if i < 16 then i
    else if i < 32 then (5 * i + 1) % 16
    else if i < 48 then (3 * i + 5) % 16
    else (7 * i) % 16
  let tmp := w32 (f + a + K.getD i 0 + M g)
  (d, w32 (b + rotl tmp (S.getD i 0)), b, c)

/-- Process one 64-byte block: run the 64 rounds and add the result to the
incoming state, word-wise modulo `2^32`. -/
def processBlock (st : Nat × Nat × Nat × Nat) (block : List Nat) :
    Nat × Nat × Nat × Nat :=
  let (a, b, c, d) := (List.range 64).foldl (round (leWord block)) st
  (w32 (st.1 + a), w32 (st.2.1 + b), w32 (st.2.2.1 + c), w32 (st.2.2.2 + d))

/-- The four 32-bit state words of the MD5 digest of a byte sequence. -/
def md5Words (msg : List Nat) : Nat × Nat × Nat × Nat :=
  (chunks64 (padMessage msg)).foldl processBlock
    (0x67452301, 0xefcdab89, 0x98badcfe, 0x10325476)

/-- Lowercase hexadecimal digit. -/
def hexDigit (n : Nat) : Char :=
  if n < 10 then Char.ofNat (48 + n) else Char.ofNat (87 + n)

/-- Two lowercase hex characters of a byte. -/
def byteHex (b : Nat) : List Char := [hexDigit (b / 16), hexDigit (b % 16)]

/-- Hex rendering of a 32-bit word, least-significant byte first. -/
def wordLEHex (w : Nat) : List Char :=
  ((List.range 4).map (fun i => byteHex ((w >>> (8 * i)) &&& 0xFF))).flatten

/-- Model of `hashlib.md5(s.encode()).hexdigest()`. -/
def md5Hex (s : String) : String :=
  let (a, b, c, d) := md5Words (utf8Bytes s)
  String.mk (wordLEHex a ++ wordLEHex b ++ wordLEHex c ++ wordLEHex d)

end MD5

namespace Server

/-!
Embedding of the data model, data-access layer and request handlers of
`server.py`. Columns without `nullable=False` are `Option`-valued; the
uniqueness and foreign-key constraints of PostgreSQL are modelled on the
row lists; `web.HTTPNotFound` / `web.HTTPBadRequest` raised by the handlers
become the corresponding outcomes, and a Python exception that no handler
catches becomes an `uncaught` outcome.
-/

/-- A JSON scalar appearing in a response payload. -/
inductive JVal where
  | jnum : Int → JVal
  | jstr : String → JVal
  | jnull : JVal
deriving DecidableEq, Repr

/-- Serialization of a nullable string column. -/
def jOptStr : Option String → JVal
  | some s => .jstr s
  | none => .jnull

/-- Serialization of a nullable integer column. -/
def jOptNum : Option Nat → JVal
  | some n => .jnum n
  | none => .jnull

/-- A row of the `user` table (server.py lines 43-50): integer primary key,
nullable `username`, `email`, `password` string columns. -/
structure UserRow where
  id : Nat
  username : Option String
  email : Option String
  password : Option String
deriving DecidableEq, Repr

/-- A row of the `advert` table (server.py lines 68-76): integer primary key,
nullable `title` and `text`, a `timestamp` string filled by the column
default, and a nullable `user_id` foreign key into `user`. -/
structure AdvertRow where
  id : Nat
  title : Option String
  text : Option String
  timestamp : String
  user_id : Option Nat
deriving DecidableEq, Repr

/-- The database state.  `moduleLoadTime` is the string
`datetime.isoformat(datetime.utcnow())` computed ONCE when the `Advert`
class body was executed at module load (server.py line 75): the `default=`
argument is the already-evaluated string, not a callable, so this single
value is the column default for every later insert.  `nextUserId` and
`nextAdvertId` model the serial primary-key sequences (starting at 1). -/
structure DB where
  moduleLoadTime : String
  users : List UserRow
  adverts : List AdvertRow
  nextUserId : Nat
  nextAdvertId : Nat
deriving DecidableEq, Repr

/-- The state right after `db.gino.create_all()` on a fresh store. -/
def initialDB (moduleLoadTime : String) : DB :=
  ⟨moduleLoadTime, [], [], 1, 1⟩

/-- The outcome a handler produces for the transport layer. -/
inductive Outcome where
  | ok : List (String × JVal) → Outcome
  | okList : List (List JVal) → Outcome
  | httpNotFound : Outcome
  | httpBadRequest : Outcome
  | uncaught : String → Outcome
deriving DecidableEq, Repr

/-- An outcome is an HTTP response (the handler mapped the result or error
to a status) rather than an exception escaping to the transport layer.
`ok`/`okList` are 200, `httpNotFound` is 404, `httpBadRequest` is 400. -/
def Outcome.isHttpResponse : Outcome → Bool
  | .uncaught _ => false
  | _ => true

/-- `User.get(id)`: fetch by primary key. -/
def User.get (db : DB) (id : Nat) : Option UserRow :=
  db.users.find? (fun u => u.id == id)

/-- `Advert.get(id)`: fetch by primary key. -/
def Advert.get (db : DB) (id : Nat) : Option AdvertRow :=
  db.adverts.find? (fun a => a.id == id)

/-- Whether inserting a user with the given `username`/`email` violates one
of the two unique indexes (server.py lines 48-49) against the stored user
rows.  As in PostgreSQL, a NULL value never conflicts. -/
def userConflict (users : List UserRow) (username email : Option String) : Bool :=
  users.any (fun u =>
    (match username, u.username with
     | some s, some t => s == t
     | _, _ => false) ||
    (match email, u.email with
     | some s, some t => s == t
     | _, _ => false))

/-- `User.create(**kwargs)`: single-row insert; raises
`UniqueViolationError` when a unique index is violated. -/
def User.create (db : DB) (username email password : Option String) :
    Except String (UserRow × DB) :=
  if userConflict db.users username email then .error "UniqueViolationError"
  else
    let row : UserRow := ⟨db.nextUserId, username, email, password⟩
    .ok (row, { db with users := db.users ++ [row],
                        nextUserId := db.nextUserId + 1 })

/-- Whether inserting an advert with the given `user_id` violates the
foreign key into `user` (server.py line 76) against the stored user rows. -/
def fkViolation (users : List UserRow) (user_id : Option Nat) : Bool :=
  match user_id with
  | none => false
  | some uid => !(users.any (fun u => u.id == uid))

/-- `Advert.create(**kwargs)` for a body `{title, text, user_id}`: the
`timestamp` column receives its default — the string captured at module
load (server.py line 75) — and the insert raises `ForeignKeyViolationError`
on a dangling `user_id`. -/
def Advert.create (db : DB) (title text : Option String)
    (user_id : Option Nat) : Except String (AdvertRow × DB) :=
  if fkViolation db.users user_id then .error "ForeignKeyViolationError"
  else
    let row : AdvertRow :=
      ⟨db.nextAdvertId, title, text, db.moduleLoadTime, user_id⟩
    .ok (row, { db with adverts := db.adverts ++ [row],
                        nextAdvertId := db.nextAdvertId + 1 })

/-- `User.to_dict()` (server.py lines 55-60): exactly `id`, `username`,
`email`; the `password` column is not serialized. -/
def userToDict (u : UserRow) : List (String × JVal) :=
  [("id", .jnum u.id), ("username", jOptStr u.username),
   ("email", jOptStr u.email)]

/-- `Advert.to_dict()` (server.py lines 81-88): `id`, `title`, `text`,
`owner` (the `user_id` column) and `timestamp`. -/
def advertToDict (a : AdvertRow) : List (String × JVal) :=
  [("id", .jnum a.id), ("title", jOptStr a.title), ("text", jOptStr a.text),
   ("owner", jOptNum a.user_id), ("timestamp", .jstr a.timestamp)]

/-- The JSON body of a `POST /user` request: `request.json()` either fails
to parse, or yields a dict whose relevant keys may each be absent. -/
inductive UserPostRequest where
  | malformed : UserPostRequest
  | parsed : Option String → Option String → Option String → UserPostRequest
deriving DecidableEq, Repr

/-- The JSON body of a `POST /advert` request with keys
`{title, text, user_id}`. -/
inductive AdvertPostRequest where
  | malformed : AdvertPostRequest
  | parsed : Option String → Option String → Option Nat → AdvertPostRequest
deriving DecidableEq, Repr

/-- `UserView.get` (server.py lines 122-125) composed with
`BaseModel.get_or_404`: fetch by id, 404 when absent. -/
def userViewGet (db : DB) (id : Nat) : Outcome :=
  match User.get db id with
  | some u => .ok (userToDict u)
  | none => .httpNotFound

/-- `AdvertView.get` (server.py lines 135-138) composed with
`BaseModel.get_or_404`. -/
def advertViewGet (db : DB) (id : Nat) : Outcome :=
  match Advert.get db id with
  | some a => .ok (advertToDict a)
  | none => .httpNotFound

/-- `AdvertView.delete` (server.py lines 140-143) composed with
`BaseModel.delete_or_404`: when the row exists it is deleted and the
handler answers `{"Deleted ID": id}`; otherwise 404. -/
def advertViewDelete (db : DB) (id : Nat) : Outcome × DB :=
  match Advert.get db id with
  | some _ =>
      (.ok [("Deleted ID", .jnum id)],
       { db with adverts := db.adverts.filter (fun a => a.id != id) })
  | none => (.httpNotFound, db)

/-- `UserView.post` (server.py lines 127-130) composed with
`User.create_instance` (lines 62-65) and `BaseModel.create_instance`
(lines 34-40).  A body that fails JSON parsing raises `JSONDecodeError`
uncaught; a parsed body without a `password` key raises `KeyError` at
`kwargs['password']` before any database call; otherwise the password is
replaced by its MD5 hex digest and the row inserted, with
`UniqueViolationError` caught and turned into `HTTPBadRequest`. -/
def userViewPost (db : DB) (req : UserPostRequest) : Outcome × DB :=
  match req with
  | .malformed => (.uncaught "JSONDecodeError", db)
  | .parsed username email password =>
    match password with
    | none => (.uncaught "KeyError", db)
    | some pw =>
      match User.create db username email (some (MD5.md5Hex pw)) with
      | .error _ => (.httpBadRequest, db)
      | .ok (row, db') => (.ok (userToDict row), db')

/-- `AdvertView.post` (server.py lines 145-148) composed with
`BaseModel.create_instance`.  `now` is the moment the request is served; it
does not enter the computation because the `timestamp` default was already
evaluated at module load.  A `ForeignKeyViolationError` is not a
`UniqueViolationError`, so the `except` clause does not catch it. -/
def advertViewPost (db : DB) (req : AdvertPostRequest) (now : String) :
    Outcome × DB :=
  match req with
  | .malformed => (.uncaught "JSONDecodeError", db)
  | .parsed title text user_id =>
    match Advert.create db title text user_id with
    | .error e => (.uncaught e, db)
    | .ok (row, db') => (.ok (advertToDict row), db')

/-- `Users.get` (server.py lines 151-159): raw
`SELECT id, username, email FROM public.user`, one positional tuple per
row. -/
def Users.get (db : DB) : Outcome :=
  .okList (db.users.map (fun u =>
    [.jnum u.id, jOptStr u.username, jOptStr u.email]))

/-- `Adverts.get` (server.py lines 162-170): raw
`SELECT id, title, text, user_id, timestamp FROM public.advert`. -/
def Adverts.get (db : DB) : Outcome :=
  .okList (db.adverts.map (fun a =>
    [.jnum a.id, jOptStr a.title, jOptStr a.text, jOptNum a.user_id,
     .jstr a.timestamp]))

/-- An ASCII decimal digit, as matched by `\d` in the route patterns. -/
def isAsciiDigit (c : Char) : Bool := '0' ≤ c && c ≤ '9'

/-- The `\d+` segment pattern of the routes
`r'/user/{user_id:\d+}'` and `r'/advert/{advert_id:\d+}'`
(server.py lines 178, 181, 184): one or more digits. -/
def routeDigits (s : String) : Bool :=
  !s.toList.isEmpty && s.toList.all isAsciiDigit

/-- Decimal value of a digit sequence. -/
def digitsVal (cs : List Char) : Nat :=
  cs.foldl (fun acc c => acc * 10 + (c.toNat - 48)) 0

/-- Model of Python `int(s)` on a path segment (server.py lines 123, 136,
141): an optional sign followed by one or more decimal digits parses to the
signed value; anything else raises `ValueError` (`none`). -/
def pyInt (s : String) : Option Int :=
  let cs := s.toList
  if cs.head? = some '+' then
    if cs.tail ≠ [] ∧ cs.tail.all isAsciiDigit then
      some (digitsVal cs.tail) else none
  else if cs.head? = some '-' then
    if cs.tail ≠ [] ∧ cs.tail.all isAsciiDigit then
      some (-(digitsVal cs.tail : Int)) else none
  else
    if cs ≠ [] ∧ cs.all isAsciiDigit then some (digitsVal cs) else none

/-- A sequence of `POST /advert` requests with parsed bodies
`{title, text, user_id}`, served one after the other at moment `now`. -/
def postAdverts (db : DB) (now : String) :
    List (Option String × Option String × Option Nat) → DB
  | [] => db
  | b :: bs => postAdverts (advertViewPost db (.parsed b.1 b.2.1 b.2.2) now).2 now bs

/-- The advert rows such a sequence of creations stores, with consecutive
ids from `startId` and every `timestamp` equal to the module-load default
`mod`. -/
def createdAdvertRows (mod : String) (startId : Nat) :
    List (Option String × Option String × Option Nat) → List AdvertRow
  | [] => []
  | b :: bs => ⟨startId, b.1, b.2.1, mod, b.2.2⟩ :: createdAdvertRows mod (startId + 1) bs

end Server

open Server

/-- Claim C1: the specification states that the `timestamp` column default
is applied at insert time, so adverts created at different moments receive
different creation timestamps.  The code evaluates
`datetime.isoformat(datetime.utcnow())` once, when the `Advert` class body
runs: the stored value never depends on the creation moment, and two
adverts created at distinct moments carry the identical module-load
string. -/
theorem c1_timestamp_is_module_load_constant :
    (∀ (db : Server.DB) (title text : Option String) (user_id : Option Nat)
        (now now' : String),
      (Server.advertViewPost db (.parsed title text user_id) now).2 =
        (Server.advertViewPost db (.parsed title text user_id) now').2) ∧
    ("2024-06-01T10:00:00" : String) ≠ "2024-07-15T09:30:00" ∧
    (Server.advertViewPost
        (Server.advertViewPost (Server.initialDB "2020-01-01T00:00:00")
          (.parsed (some "Bike") (some "For sale") none)
          "2024-06-01T10:00:00").2
        (.parsed (some "Car") (some "Nice") none)
        "2024-07-15T09:30:00").2.adverts.map Server.AdvertRow.timestamp =
      ["2020-01-01T00:00:00", "2020-01-01T00:00:00"] := by
  refine ⟨fun db t x u now now' => rfl, by decide, rfl⟩

/-- Claim C2: a `POST /user` whose username or email equals that of an
already-stored user yields `HTTPBadRequest` (400) and leaves the stored
user rows — hence the row count — unchanged. -/
theorem c2_duplicate_user_conflict (db : Server.DB)
    (username email : Option String) (pw : String)
    (hconf : ∃ u ∈ db.users,
        (∃ s, username = some s ∧ u.username = some s) ∨
        (∃ s, email = some s ∧ u.email = some s)) :
    Server.userViewPost db (.parsed username email (some pw)) =
      (.httpBadRequest, db) := by
  have hc : Server.userConflict db.users username email = true := by
    obtain ⟨u, hmem, hcase⟩ := hconf
    unfold Server.userConflict
    rw [List.any_eq_true]
    refine ⟨u, hmem, ?_⟩
    rcases hcase with ⟨s, h1, h2⟩ | ⟨s, h1, h2⟩
    · subst h1; rw [h2]; simp
    · subst h1; rw [h2]; simp
  simp [Server.userViewPost, Server.User.create, hc]

/-- Witness for C2: with `alice` already stored, posting a second `alice`
answers 400 and the store is untouched. -/
theorem c2_witness :
    Server.userViewPost
        ⟨"t", [⟨1, some "alice", some "a@x.com", some "h"⟩], [], 2, 1⟩
        (.parsed (some "alice") (some "b@y.com") (some "p2")) =
      (.httpBadRequest, ⟨"t", [⟨1, some "alice", some "a@x.com", some "h"⟩], [], 2, 1⟩) := by
  exact c2_duplicate_user_conflict _ _ _ _
    ⟨⟨1, some "alice", some "a@x.com", some "h"⟩, by simp,
     Or.inl ⟨"alice", rfl, rfl⟩⟩

/-- Claim C3: a successful `POST /user` stores, in the `password` column,
the MD5 hex digest of the submitted plaintext — the value written is the
hash computed before the insert. -/
theorem c3_password_stored_hashed (db : Server.DB)
    (username email : Option String) (pw : String)
    (hnc : Server.userConflict db.users username email = false) :
    (Server.userViewPost db (.parsed username email (some pw))).2.users =
      db.users ++ [⟨db.nextUserId, username, email, some (MD5.md5Hex pw)⟩] := by
  simp [Server.userViewPost, Server.User.create, hnc]

set_option maxRecDepth 40000 in
/-- Witness for C3: creating `alice` with password `p1` stores the digest
`ec6ef230f1828039ee794566b9c58adc`, which differs from the plaintext. -/
theorem c3_witness :
    Server.userConflict (Server.initialDB "t").users (some "alice") (some "a@x.com") = false ∧
    (Server.userViewPost (Server.initialDB "t")
        (.parsed (some "alice") (some "a@x.com") (some "p1"))).2.users =
      [⟨1, some "alice", some "a@x.com", some "ec6ef230f1828039ee794566b9c58adc"⟩] ∧
    MD5.md5Hex "p1" = "ec6ef230f1828039ee794566b9c58adc" ∧
    MD5.md5Hex "p1" ≠ "p1" := by
  have hmd5 : MD5.md5Hex "p1" = "ec6ef230f1828039ee794566b9c58adc" := by decide
  refine ⟨rfl, ?_, hmd5, by rw [hmd5]; decide⟩
  rw [c3_password_stored_hashed (Server.initialDB "t")
    (some "alice") (some "a@x.com") "p1" rfl, hmd5]
  rfl

/-- Claim C4: deleting a stored advert answers `{"Deleted ID": id}` and
removes the row, so a subsequent fetch of the same id yields 404. -/
theorem c4_delete_removes_row (db : Server.DB) (id : Nat)
    (h : (Server.Advert.get db id).isSome = true) :
    (Server.advertViewDelete db id).1 = .ok [("Deleted ID", .jnum id)] ∧
    Server.advertViewGet (Server.advertViewDelete db id).2 id = .httpNotFound := by
  obtain ⟨a, ha⟩ := Option.isSome_iff_exists.mp h
  constructor
  · simp [Server.advertViewDelete, ha]
  · have hnone : Server.Advert.get (Server.advertViewDelete db id).2 id = none := by
      unfold Server.Advert.get
      rw [List.find?_eq_none]
      intro x hx
      simp [Server.advertViewDelete, ha] at hx
      simp [hx.2]
    simp [Server.advertViewGet, hnone]

/-- Witness for C4: deleting advert 1 from a store holding exactly that
advert echoes its id and makes the subsequent fetch a 404. -/
theorem c4_witness :
    (Server.Advert.get ⟨"t", [], [⟨1, some "Bike", some "For sale", "t", none⟩], 1, 2⟩ 1).isSome = true ∧
    (Server.advertViewDelete ⟨"t", [], [⟨1, some "Bike", some "For sale", "t", none⟩], 1, 2⟩ 1).1 =
      .ok [("Deleted ID", .jnum 1)] ∧
    Server.advertViewGet
      (Server.advertViewDelete ⟨"t", [], [⟨1, some "Bike", some "For sale", "t", none⟩], 1, 2⟩ 1).2 1 =
      .httpNotFound := by
  refine ⟨by decide, ?_, ?_⟩
  · exact (c4_delete_removes_row _ 1 (by decide)).1
  · exact (c4_delete_removes_row _ 1 (by decide)).2

/-- Counterexample to claim C5 as stated: a parsed `POST /user` body
without a `password` key makes the handler raise `KeyError`, which no
handler-level mapping turns into an HTTP status — the error escapes to the
transport layer instead of being recovered at the handler boundary. -/
theorem c5_counterexample :
    (Server.userViewPost (Server.initialDB "2020-01-01T00:00:00")
        (.parsed (some "alice") (some "a@x.com") none)).1 =
      .uncaught "KeyError" ∧
    (Server.Outcome.uncaught "KeyError").isHttpResponse = false := by
  exact ⟨rfl, rfl⟩

/-- Claim C5 as amended: the errors the data-access layer signals through
`get_or_404` / `delete_or_404` / the `UniqueViolationError` handler are
recovered at the handler boundary and mapped to HTTP statuses (404, 400) —
every GET, every DELETE, every user POST whose parsed body has a password,
and every advert POST whose body passes the foreign-key check produce an
HTTP response — but malformed JSON bodies, missing required fields and
foreign-key violations are not recovered and propagate uncaught. -/
theorem c5_handler_error_mapping (db1 db2 db3 db4 db5 : Server.DB)
    (id1 id2 id3 : Nat) (username email : Option String) (pw : String)
    (title text : Option String) (now : String) :
    (Server.userViewGet db1 id1).isHttpResponse = true ∧
    (Server.advertViewGet db2 id2).isHttpResponse = true ∧
    ((Server.advertViewDelete db3 id3).1).isHttpResponse = true ∧
    ((Server.userViewPost db4 (.parsed username email (some pw))).1).isHttpResponse = true ∧
    ((Server.advertViewPost db5 (.parsed title text none) now).1).isHttpResponse = true := by
  refine ⟨?_, ?_, ?_, ?_, ?_⟩
  · cases h : Server.User.get db1 id1 <;>
      simp [Server.userViewGet, h, Server.Outcome.isHttpResponse]
  · cases h : Server.Advert.get db2 id2 <;>
      simp [Server.advertViewGet, h, Server.Outcome.isHttpResponse]
  · cases h : Server.Advert.get db3 id3 <;>
      simp [Server.advertViewDelete, h, Server.Outcome.isHttpResponse]
  · cases h : Server.User.create db4 username email (some (MD5.md5Hex pw)) with
    | error e => simp [Server.userViewPost, h, Server.Outcome.isHttpResponse]
    | ok v => simp [Server.userViewPost, h, Server.Outcome.isHttpResponse]
  · simp [Server.advertViewPost, Server.Advert.create, Server.fkViolation,
      Server.Outcome.isHttpResponse]

/-- Claim C6: fetching a user or an advert by an id no stored row carries
yields 404 on both GET endpoints. -/
theorem c6_get_absent_yields_not_found (db : Server.DB) (id : Nat)
    (hu : ∀ u ∈ db.users, u.id ≠ id) (ha : ∀ a ∈ db.adverts, a.id ≠ id) :
    Server.userViewGet db id = .httpNotFound ∧
    Server.advertViewGet db id = .httpNotFound := by
  have h1 : Server.User.get db id = none := by
    unfold Server.User.get
    rw [List.find?_eq_none]
    intro u hmem
    simpa using hu u hmem
  have h2 : Server.Advert.get db id = none := by
    unfold Server.Advert.get
    rw [List.find?_eq_none]
    intro a hmem
    simpa using ha a hmem
  exact ⟨by simp [Server.userViewGet, h1], by simp [Server.advertViewGet, h2]⟩

/-- Witness for C6: on the fresh store, id 7 was never assigned and both
GET endpoints answer 404. -/
theorem c6_witness :
    (∀ u ∈ (Server.initialDB "t").users, u.id ≠ 7) ∧
    Server.userViewGet (Server.initialDB "t") 7 = .httpNotFound ∧
    Server.advertViewGet (Server.initialDB "t") 7 = .httpNotFound := by
  refine ⟨by decide, ?_, ?_⟩
  · exact (c6_get_absent_yields_not_found (Server.initialDB "t") 7
      (by intro u hu; simp [Server.initialDB] at hu)
      (by intro a ha; simp [Server.initialDB] at ha)).1
  · exact (c6_get_absent_yields_not_found (Server.initialDB "t") 7
      (by intro u hu; simp [Server.initialDB] at hu)
      (by intro a ha; simp [Server.initialDB] at ha)).2

/-- Claim C7: creating a user and immediately fetching it return the same
`username` and `email`, and both payloads consist of exactly the fields
`id`, `username`, `email` — the password column is not serialized. -/
theorem c7_create_then_fetch (db : Server.DB) (uname em pw : String)
    (hfresh : ∀ u ∈ db.users, u.id < db.nextUserId)
    (hnc : Server.userConflict db.users (some uname) (some em) = false) :
    (Server.userViewPost db (.parsed (some uname) (some em) (some pw))).1 =
      .ok [("id", .jnum db.nextUserId), ("username", .jstr uname),
           ("email", .jstr em)] ∧
    Server.userViewGet
        (Server.userViewPost db (.parsed (some uname) (some em) (some pw))).2
        db.nextUserId =
      .ok [("id", .jnum db.nextUserId), ("username", .jstr uname),
           ("email", .jstr em)] := by
  have hpost : Server.userViewPost db (.parsed (some uname) (some em) (some pw)) =
      (.ok [("id", .jnum db.nextUserId), ("username", .jstr uname),
            ("email", .jstr em)],
       { db with
         users := db.users ++
           [⟨db.nextUserId, some uname, some em, some (MD5.md5Hex pw)⟩],
         nextUserId := db.nextUserId + 1 }) := by
    simp [Server.userViewPost, Server.User.create, hnc, Server.userToDict,
      Server.jOptStr]
  rw [hpost]
  refine ⟨rfl, ?_⟩
  have hget : Server.User.get
      { db with
        users := db.users ++
          [⟨db.nextUserId, some uname, some em, some (MD5.md5Hex pw)⟩],
        nextUserId := db.nextUserId + 1 } db.nextUserId =
      some ⟨db.nextUserId, some uname, some em, some (MD5.md5Hex pw)⟩ := by
    unfold Server.User.get
    rw [List.find?_append]
    have hold : db.users.find? (fun u => u.id == db.nextUserId) = none := by
      rw [List.find?_eq_none]
      intro u hmem
      simp only [beq_iff_eq]
      exact Nat.ne_of_lt (hfresh u hmem)
    rw [hold]
    simp
  simp [Server.userViewGet, hget, Server.userToDict, Server.jOptStr]

/-- Witness for C7: the concrete scenario of the specification — creating
`alice` answers `{"id": 1, "username": "alice", "email": "a@x.com"}`, and
so does the immediate fetch of user 1. -/
theorem c7_witness :
    (Server.userViewPost (Server.initialDB "t")
        (.parsed (some "alice") (some "a@x.com") (some "p1"))).1 =
      .ok [("id", .jnum 1), ("username", .jstr "alice"),
           ("email", .jstr "a@x.com")] ∧
    Server.userViewGet
        (Server.userViewPost (Server.initialDB "t")
          (.parsed (some "alice") (some "a@x.com") (some "p1"))).2 1 =
      .ok [("id", .jnum 1), ("username", .jstr "alice"),
           ("email", .jstr "a@x.com")] := by
  exact ⟨(c7_create_then_fetch (Server.initialDB "t") "alice" "a@x.com" "p1"
      (by intro u hu; simp [Server.initialDB] at hu) rfl).1,
    (c7_create_then_fetch (Server.initialDB "t") "alice" "a@x.com" "p1"
      (by intro u hu; simp [Server.initialDB] at hu) rfl).2⟩

/-- Serving a sequence of advert creations whose bodies all pass the
foreign-key check appends exactly the expected rows to the advert table. -/
theorem postAdverts_adverts (now : String)
    (bs : List (Option String × Option String × Option Nat)) :
    ∀ db : Server.DB, (∀ b ∈ bs, Server.fkViolation db.users b.2.2 = false) →
    (Server.postAdverts db now bs).adverts =
      db.adverts ++
        Server.createdAdvertRows db.moduleLoadTime db.nextAdvertId bs := by
  induction bs with
  | nil =>
    intro db h
    simp [Server.postAdverts, Server.createdAdvertRows]
  | cons b bs ih =>
    intro db h
    have hb : Server.fkViolation db.users b.2.2 = false := h b (by simp)
    have hstep : (Server.advertViewPost db (.parsed b.1 b.2.1 b.2.2) now).2 =
        { db with
          adverts := db.adverts ++
            [⟨db.nextAdvertId, b.1, b.2.1, db.moduleLoadTime, b.2.2⟩],
          nextAdvertId := db.nextAdvertId + 1 } := by
      simp [Server.advertViewPost, Server.Advert.create, hb]
    unfold Server.postAdverts
    rw [hstep]
    rw [ih _ (by intro b' hb'; exact h b' (List.mem_cons_of_mem b hb'))]
    simp [Server.createdAdvertRows, List.append_assoc]

/-- The number of rows a sequence of creations stores equals the number of
requests. -/
theorem createdAdvertRows_length (mod : String)
    (bs : List (Option String × Option String × Option Nat)) :
    ∀ startId, (Server.createdAdvertRows mod startId bs).length = bs.length := by
  induction bs with
  | nil => intro startId; simp [Server.createdAdvertRows]
  | cons b bs ih =>
    intro startId
    simp [Server.createdAdvertRows, ih]

/-- Claim C8: the listing endpoints return one unlabeled positional tuple
per stored row in the fixed column orders `id, username, email` (users)
and `id, title, text, owner, timestamp` (adverts); after creating N
adverts on an empty advert table the adverts listing has exactly N
entries, each matching one created record's field values in that order. -/
theorem c8_listings_positional (db : Server.DB) (now : String)
    (bs : List (Option String × Option String × Option Nat))
    (hfk : ∀ b ∈ bs, Server.fkViolation db.users b.2.2 = false)
    (hempty : db.adverts = []) :
    Server.Users.get db =
      .okList (db.users.map (fun u =>
        [.jnum u.id, Server.jOptStr u.username, Server.jOptStr u.email])) ∧
    ∃ rows, Server.Adverts.get (Server.postAdverts db now bs) = .okList rows ∧
      rows.length = bs.length ∧
      rows = (Server.createdAdvertRows db.moduleLoadTime db.nextAdvertId bs).map
        (fun a => [.jnum a.id, Server.jOptStr a.title, Server.jOptStr a.text,
                   Server.jOptNum a.user_id, .jstr a.timestamp]) := by
  have hadv : (Server.postAdverts db now bs).adverts =
      Server.createdAdvertRows db.moduleLoadTime db.nextAdvertId bs := by
    rw [postAdverts_adverts now bs db hfk, hempty]
    simp
  refine ⟨rfl, _, ?_, ?_, rfl⟩
  · simp [Server.Adverts.get, hadv]
  · simp [createdAdvertRows_length]

/-- Witness for C8: creating two adverts on the fresh store makes the
listing exactly their two positional tuples in insertion order. -/
theorem c8_witness :
    ∃ rows,
      Server.Adverts.get (Server.postAdverts (Server.initialDB "t") "2024-01-01"
          [(some "Bike", some "For sale", none), (some "Car", none, none)]) =
        .okList rows ∧
      rows.length = 2 ∧
      rows = [[.jnum 1, .jstr "Bike", .jstr "For sale", .jnull, .jstr "t"],
              [.jnum 2, .jstr "Car", .jnull, .jnull, .jstr "t"]] := by
  obtain ⟨-, rows, h1, h2, h3⟩ :=
    c8_listings_positional (Server.initialDB "t") "2024-01-01"
      [(some "Bike", some "For sale", none), (some "Car", none, none)]
      (by decide) rfl
  exact ⟨rows, h1, by simpa using h2, by rw [h3]; decide⟩

/-- Claim C9: a path segment matched by the `\d+` route pattern is a
non-empty digit string, so Python `int()` applied to it always succeeds
and yields a non-negative integer. -/
theorem c9_route_pattern_parses (s : String)
    (h : Server.routeDigits s = true) :
    ∃ n : Nat, Server.pyInt s = some (n : Int) ∧ 0 ≤ (n : Int) := by
  obtain ⟨h1, h2⟩ := (Bool.and_eq_true _ _).mp h
  refine ⟨Server.digitsVal s.toList, ?_, by positivity⟩
  unfold Server.pyInt
  cases hcs : s.toList with
  | nil => rw [hcs] at h1; simp at h1
  | cons c rest =>
    rw [hcs] at h2
    have hcd : Server.isAsciiDigit c = true := by
      have := List.all_eq_true.mp h2 c (by simp)
      exact this
    have hplus : c ≠ '+' := by rintro rfl; simp [Server.isAsciiDigit] at hcd
    have hminus : c ≠ '-' := by rintro rfl; simp [Server.isAsciiDigit] at hcd
    simp only [hcs]
    rw [if_neg, if_neg]
    · rw [if_pos ⟨by simp, h2⟩]
    · simp [hminus]
    · simp [hplus]

/-- Witness for C9: the segment `42` matches the pattern and `int()`
parses it to the non-negative value 42. -/
theorem c9_witness :
    Server.routeDigits "42" = true ∧
    (∃ n : Nat, Server.pyInt "42" = some (n : Int) ∧ 0 ≤ (n : Int)) ∧
    Server.pyInt "42" = some 42 := by
  exact ⟨by decide, c9_route_pattern_parses "42" (by decide), by decide⟩

/-- Claim C10: a parsed `POST /user` body without a `password` key makes
the handler raise `KeyError` at `kwargs['password']` — not an HTTP error
response — and the database state, in particular the stored user rows, is
unchanged, since the exception is raised before any database call. -/
theorem c10_missing_password_raises_keyerror (db : Server.DB)
    (username email : Option String) :
    Server.userViewPost db (.parsed username email none) =
      (.uncaught "KeyError", db) ∧
    (Server.Outcome.uncaught "KeyError").isHttpResponse = false := by
  exact ⟨rfl, rfl⟩
